import Mathlib

/-!
Verification of the eth-global payment core: a shallow embedding of the
`TransactionManager` transaction state machine (src/unnamed/part_006) and of
the `PaymentService` orchestrator (src/eztx/services/PaymentService.ts),
together with proofs of the specified properties.

Modelling conventions:
* TypeScript `Date` timestamps become `Nat` millisecond counts passed
  explicitly (`now`) to every operation that reads the clock.
* Monetary amounts become `Rat` (TS `number` used as a decimal).
* `undefined` / optional values become `Option`.
* Methods that `throw` become `Except String`, with the thrown message.
* The JS `Map` backing `TransactionManager.states` becomes an association
  list with `Map.get` / `Map.set` / `Map.delete` semantics (unique keys,
  insertion order, `set` replaces in place).
* Side effects that do not change the in-memory state are made explicit in
  return values: status-change observer notifications are returned as a
  `List Notification` (the `localStorage` persistence is a pure function of
  the in-memory map, so "state unchanged" subsumes "nothing re-persisted").
* Asynchrony (`await`-ed delays) is modelled by returning the computed delay
  value; scheduling itself has no observable effect on the stored data.
-/

/-- The `TransactionStatus` enum from src/eztx/types/payment.ts. -/
inductive TransactionStatus where
  | INITIATED
  | PENDING
  | ON_RAMPING
  | CONVERTING
  | TRANSFERRING
  | OFF_RAMPING
  | COMPLETED
  | FAILED
deriving DecidableEq, Fintype

open TransactionStatus

/-- A `StateTransition` record (part_006).  TS field `from` is a Lean keyword,
so it is rendered `fromStatus`; `to` is rendered `toStatus` for symmetry. -/
structure StateTransition where
  fromStatus : TransactionStatus
  toStatus : TransactionStatus
  timestamp : Nat
  reason : Option String
  error : Option String
deriving DecidableEq

/-- A `TransactionState` record (part_006).  `metadata : Record<string, any>`
is modelled as an association list with opaque string values (no claim
inspects metadata values). -/
structure TransactionState where
  id : String
  currentStatus : TransactionStatus
  previousStatus : Option TransactionStatus
  transitions : List StateTransition
  retryCount : Nat
  maxRetries : Nat
  lastError : Option String
  metadata : List (String × String)
deriving DecidableEq

/-- The `RetryConfig` record (part_006). -/
structure RetryConfig where
  maxRetries : Nat
  retryableStatuses : List TransactionStatus
  retryDelayMs : Nat
  backoffMultiplier : Nat
deriving DecidableEq

/-- The default retry configuration built in the `TransactionManager`
constructor (part_006 lines 40-49). -/
def defaultRetryConfig : RetryConfig :=
  { maxRetries := 3
    retryableStatuses := [FAILED, PENDING]
    retryDelayMs := 5000
    backoffMultiplier := 2 }

/-- One synchronous observer notification, the `(transactionId, oldStatus,
newStatus)` triple passed to every registered `StatusUpdateCallback`. -/
structure Notification where
  transactionId : String
  oldStatus : TransactionStatus
  newStatus : TransactionStatus
deriving DecidableEq

/-- The mutable state of a `TransactionManager` instance: the `states` map
(as an association list in insertion order) plus the retry configuration. -/
structure TransactionManager where
  states : List (String × TransactionState)
  retryConfig : RetryConfig
deriving DecidableEq

/-- A freshly constructed manager with nothing in storage. -/
def emptyManager (cfg : RetryConfig) : TransactionManager :=
  { states := [], retryConfig := cfg }

/-- `Map.get`: first (and, under map discipline, only) binding of the key. -/
def statesGet : List (String × TransactionState) → String → Option TransactionState
  | [], _ => none
  | p :: rest, k => if p.1 = k then some p.2 else statesGet rest k

/-- `Map.set`: replace the existing binding in place, else append. -/
def statesSet : List (String × TransactionState) → String → TransactionState →
    List (String × TransactionState)
  | [], k, v => [(k, v)]
  | p :: rest, k, v => if p.1 = k then (k, v) :: rest else p :: statesSet rest k v

/-- `TransactionManager.isValidTransition` (part_006 lines 317-352): the
per-status adjacency lists of the `validTransitions` table. -/
def validTransitions : TransactionStatus → List TransactionStatus
  | INITIATED => [PENDING, FAILED]
  | PENDING => [ON_RAMPING, FAILED]
  | ON_RAMPING => [CONVERTING, FAILED]
  | CONVERTING => [TRANSFERRING, FAILED]
  | TRANSFERRING => [OFF_RAMPING, FAILED]
  | OFF_RAMPING => [COMPLETED, FAILED]
  | COMPLETED => []
  | FAILED => [PENDING]

/-- `isValidTransition(from, to)`: membership in the table row. -/
def isValidTransition (fromStatus toStatus : TransactionStatus) : Bool :=
  (validTransitions fromStatus).contains toStatus

/-- `TransactionManager.initializeTransaction` (part_006 lines 58-76):
creates a fresh state whose transitions log holds one synthetic
`INITIATED → initialStatus` entry, stores and returns it. -/
def initializeTransaction (tm : TransactionManager) (transactionId : String)
    (initialStatus : TransactionStatus) (now : Nat) :
    TransactionState × TransactionManager :=
  let state : TransactionState :=
    { id := transactionId
      currentStatus := initialStatus
      previousStatus := none
      transitions := [{ fromStatus := INITIATED, toStatus := initialStatus,
                        timestamp := now, reason := some "Transaction initialized",
                        error := none }]
      retryCount := 0
      maxRetries := tm.retryConfig.maxRetries
      lastError := none
      metadata := [] }
  (state, { tm with states := statesSet tm.states transactionId state })

/-- `TransactionManager.transitionTo` (part_006 lines 81-115): throws when the
id is unknown; soft-rejects (returns `false`, changes nothing, notifies
nobody) when the transition is illegal; otherwise records the transition,
updates the status and notifies observers. -/
def transitionTo (tm : TransactionManager) (transactionId : String)
    (newStatus : TransactionStatus) (reason : Option String) (now : Nat) :
    Except String (Bool × TransactionManager × List Notification) :=
  match statesGet tm.states transactionId with
  | none => .error ("Transaction state not found: " ++ transactionId)
  | some state =>
    if isValidTransition state.currentStatus newStatus = false then
      .ok (false, tm, [])
    else
      let oldStatus := state.currentStatus
      let newState : TransactionState :=
        { state with
            previousStatus := some oldStatus
            currentStatus := newStatus
            transitions := state.transitions ++
              [{ fromStatus := oldStatus, toStatus := newStatus,
                 timestamp := now, reason := reason, error := none }] }
      .ok (true, { tm with states := statesSet tm.states transactionId newState },
           [{ transactionId := transactionId, oldStatus := oldStatus,
              newStatus := newStatus }])

/-- `TransactionManager.markAsFailed` (part_006 lines 120-142): unconditional
transition to `FAILED` (no legality check), recording the error string. -/
def markAsFailed (tm : TransactionManager) (transactionId : String)
    (error : String) (reason : Option String) (now : Nat) :
    Except String (TransactionManager × List Notification) :=
  match statesGet tm.states transactionId with
  | none => .error ("Transaction state not found: " ++ transactionId)
  | some state =>
    let newState : TransactionState :=
      { state with
          lastError := some error
          previousStatus := some state.currentStatus
          currentStatus := FAILED
          transitions := state.transitions ++
            [{ fromStatus := state.currentStatus, toStatus := FAILED,
               timestamp := now, reason := some (reason.getD "Transaction failed"),
               error := some error }] }
    .ok ({ tm with states := statesSet tm.states transactionId newState },
         [{ transactionId := transactionId, oldStatus := state.currentStatus,
            newStatus := FAILED }])

/-- `TransactionManager.canRetry` (part_006 lines 170-178). -/
def canRetry (tm : TransactionManager) (transactionId : String) : Bool :=
  match statesGet tm.states transactionId with
  | none => false
  | some state =>
    tm.retryConfig.retryableStatuses.contains state.currentStatus &&
      decide (state.retryCount < state.maxRetries)

/-- Result of `retryTransaction`: the returned boolean, the backoff delay that
was awaited (`none` when the early-return path skipped it), the resulting
manager state and the emitted notifications. -/
structure RetryResult where
  success : Bool
  delayMs : Option Nat
  manager : TransactionManager
  notes : List Notification
deriving DecidableEq

/-- `TransactionManager.retryTransaction` (part_006 lines 183-210): throws on
unknown id; returns `false` untouched when `canRetry` fails; otherwise
increments `retryCount` in place, awaits
`retryDelayMs * backoffMultiplier ^ (retryCount - 1)` and attempts the
`→ PENDING` transition, returning its result. -/
def retryTransaction (tm : TransactionManager) (transactionId : String)
    (retryReason : Option String) (now : Nat) : Except String RetryResult :=
  match statesGet tm.states transactionId with
  | none => .error ("Transaction state not found: " ++ transactionId)
  | some state =>
    if canRetry tm transactionId = false then
      .ok { success := false, delayMs := none, manager := tm, notes := [] }
    else
      let newCount := state.retryCount + 1
      let tm1 : TransactionManager :=
        { tm with states := statesSet tm.states transactionId
                    { state with retryCount := newCount } }
      let delay := tm.retryConfig.retryDelayMs *
        tm.retryConfig.backoffMultiplier ^ (newCount - 1)
      match transitionTo tm1 transactionId PENDING
          (some (retryReason.getD ("Retry attempt " ++ toString newCount))) now with
      | .error e => .error e
      | .ok (success, tm2, notes) =>
        .ok { success := success, delayMs := some delay, manager := tm2,
              notes := notes }

/-- The removal test of `cleanupOldTransactions` (part_006 lines 295-304):
`COMPLETED` and strictly older than `maxAgeMs`, measured from the last
transition.  (On an empty transitions log the TS code would fault before
comparing; every state the manager ever creates has a non-empty log, and the
theorems about cleanup assume exactly that invariant.) -/
def shouldClean (now maxAgeMs : Nat) (state : TransactionState) : Bool :=
  state.currentStatus = COMPLETED &&
    match state.transitions.getLast? with
    | some t => decide ((now : Int) - (t.timestamp : Int) > (maxAgeMs : Int))
    | none => false

/-- `TransactionManager.cleanupOldTransactions` (part_006 lines 291-312):
deletes every state passing `shouldClean` while iterating the map (safe
in-order deletion, i.e. a filter) and returns the number removed. -/
def cleanupOldTransactions (tm : TransactionManager) (maxAgeMs now : Nat) :
    Nat × TransactionManager :=
  (tm.states.countP (fun p => shouldClean now maxAgeMs p.2),
   { tm with states := tm.states.filter (fun p => !shouldClean now maxAgeMs p.2) })

/-! ## PaymentService (src/eztx/services/PaymentService.ts)

The orchestrator keeps its records in a `localStorage`-backed list of
`StoredTransaction`; the injected blockchain client contributes only
`validateAddress` to the claims below, and the (randomised) `FeeCalculator`
result is an opaque `FeeEstimate` input.  The freshly generated id from
`generateTransactionId` (`Date.now()` + random suffix) enters as the
`freshId` parameter; the background `processPayment` pipeline is launched
without being awaited, so the store returned by `initiatePayment` is its
state at the moment the method returns. -/

/-- The `FeeEstimate` record from src/eztx/types/payment.ts. -/
structure FeeEstimate where
  onRampFee : Rat
  blockchainFee : Rat
  offRampFee : Rat
  totalFee : Rat
  estimatedTime : Rat
deriving DecidableEq

/-- The `PaymentRequest` record from src/eztx/types/payment.ts. -/
structure PaymentRequest where
  amount : Rat
  currency : String
  recipientAddress : String
  recipientENS : Option String
deriving DecidableEq

/-- The externally visible `Transaction` record from
src/eztx/types/payment.ts. -/
structure Transaction where
  id : String
  timestamp : Nat
  amount : Rat
  currency : String
  recipient : String
  status : TransactionStatus
  fees : FeeEstimate
  txHash : Option String
deriving DecidableEq

/-- The `StoredTransaction` record from src/eztx/types/payment.ts
(timestamps as `Nat` milliseconds rather than ISO strings). -/
structure StoredTransaction where
  id : String
  createdAt : Nat
  updatedAt : Nat
  amount : Rat
  currency : String
  recipient : String
  recipientENS : Option String
  status : TransactionStatus
  fees : FeeEstimate
  txHash : Option String
  fernOnRampId : Option String
  fernOffRampId : Option String
  paymentContractId : Option String
deriving DecidableEq

/-- `PaymentService.getStoredTransaction`: first record with the id. -/
def getStoredTransaction : List StoredTransaction → String → Option StoredTransaction
  | [], _ => none
  | t :: rest, txId => if t.id = txId then some t else getStoredTransaction rest txId

/-- `PaymentService.updateTransactionStatus` (PaymentService.ts lines
355-364): updates the first record with the id (no-op when absent). -/
def updateTransactionStatus : List StoredTransaction → String → TransactionStatus →
    Nat → List StoredTransaction
  | [], _, _, _ => []
  | t :: rest, txId, status, now =>
    if t.id = txId then { t with status := status, updatedAt := now } :: rest
    else t :: updateTransactionStatus rest txId status now

/-- `PaymentService.storeTransaction` (PaymentService.ts lines 327-350):
serialize the `Transaction` and replace-or-append by id.  (`recipientENS`
and the correlation ids are never set on this path.) -/
def storeTransaction (store : List StoredTransaction) (tx : Transaction)
    (now : Nat) : List StoredTransaction :=
  let stored : StoredTransaction :=
    { id := tx.id, createdAt := tx.timestamp, updatedAt := now,
      amount := tx.amount, currency := tx.currency, recipient := tx.recipient,
      recipientENS := none, status := tx.status, fees := tx.fees,
      txHash := tx.txHash, fernOnRampId := none, fernOffRampId := none,
      paymentContractId := none }
  upsertStored store stored
where
  upsertStored : List StoredTransaction → StoredTransaction → List StoredTransaction
    | [], s => [s]
    | t :: rest, s => if t.id = s.id then s :: rest else t :: upsertStored rest s

/-- `PaymentService.validatePaymentRequest` (PaymentService.ts lines
298-315): the four fail-fast checks, in source order.  TS falsiness of
`!request.amount` (0 and NaN) is subsumed by `amount <= 0` over `Rat`;
a missing currency or recipient is the empty string. -/
def validatePaymentRequest (validateAddress : String → Bool)
    (request : PaymentRequest) : Except String Unit :=
  if request.amount ≤ 0 then
    .error "Invalid amount: must be greater than 0"
  else if request.currency = "" then
    .error "Currency is required"
  else if request.recipientAddress = "" then
    .error "Recipient address is required"
  else if validateAddress request.recipientAddress = false then
    .error "Invalid recipient address format"
  else
    .ok ()

/-- `PaymentService.initiatePayment` (PaymentService.ts lines 42-70):
validate, compute fees, build the `INITIATED` transaction under the fresh
id, store it, and return it (the async pipeline is fired after this
snapshot and never awaited here). -/
def initiatePayment (validateAddress : String → Bool) (fees : FeeEstimate)
    (store : List StoredTransaction) (request : PaymentRequest)
    (freshId : String) (now : Nat) :
    Except String (Transaction × List StoredTransaction) :=
  match validatePaymentRequest validateAddress request with
  | .error e => .error e
  | .ok _ =>
    let transaction : Transaction :=
      { id := freshId, timestamp := now, amount := request.amount,
        currency := request.currency, recipient := request.recipientAddress,
        status := INITIATED, fees := fees, txHash := none }
    .ok (transaction, storeTransaction store transaction now)

/-- `PaymentService.cancelPayment` (PaymentService.ts lines 122-135):
throws on unknown id; flips the record to `FAILED` and returns `true` only
while the status is pre-transfer. -/
def cancelPayment (store : List StoredTransaction) (txId : String) (now : Nat) :
    Except String (Bool × List StoredTransaction) :=
  match getStoredTransaction store txId with
  | none => .error ("Transaction not found: " ++ txId)
  | some transaction =>
    if [INITIATED, PENDING, ON_RAMPING].contains transaction.status then
      .ok (true, updateTransactionStatus store txId FAILED now)
    else
      .ok (false, store)

/-- `PaymentService.retryPayment` (PaymentService.ts lines 140-159): only a
`FAILED` record may be retried; a brand-new request is built from the
stored fields and fed back through `initiatePayment`. -/
def retryPayment (validateAddress : String → Bool) (fees : FeeEstimate)
    (store : List StoredTransaction) (txId : String) (freshId : String)
    (now : Nat) : Except String (Transaction × List StoredTransaction) :=
  match getStoredTransaction store txId with
  | none => .error ("Transaction not found: " ++ txId)
  | some stored =>
    if stored.status ≠ FAILED then
      .error "Can only retry failed transactions"
    else
      initiatePayment validateAddress fees store
        { amount := stored.amount, currency := stored.currency,
          recipientAddress := stored.recipient,
          recipientENS := stored.recipientENS } freshId now

/-! ## Reachable manager states and the transitions-log invariant -/

/-- One public mutating call on a `TransactionManager`. -/
inductive ManagerOp where
  | init (transactionId : String) (initialStatus : TransactionStatus) (now : Nat)
  | trans (transactionId : String) (newStatus : TransactionStatus)
      (reason : Option String) (now : Nat)
  | fail (transactionId : String) (error : String) (reason : Option String) (now : Nat)
  | retry (transactionId : String) (retryReason : Option String) (now : Nat)

/-- Apply one call, keeping the manager unchanged when the call throws
(each method validates existence before its first mutation, so a thrown
not-found error leaves the state exactly as it was). -/
def applyOp (tm : TransactionManager) : ManagerOp → TransactionManager
  | .init transactionId initialStatus now =>
    (initializeTransaction tm transactionId initialStatus now).2
  | .trans transactionId newStatus reason now =>
    match transitionTo tm transactionId newStatus reason now with
    | .ok (_, tm2, _) => tm2
    | .error _ => tm
  | .fail transactionId error reason now =>
    match markAsFailed tm transactionId error reason now with
    | .ok (tm2, _) => tm2
    | .error _ => tm
  | .retry transactionId retryReason now =>
    match retryTransaction tm transactionId retryReason now with
    | .ok res => res.manager
    | .error _ => tm

/-- Run a whole call sequence. -/
def runOps (tm : TransactionManager) (ops : List ManagerOp) : TransactionManager :=
  ops.foldl applyOp tm

/-- State-machine continuity between two adjacent log entries: the later
entry starts where the earlier one ended. -/
def continuous (a b : StateTransition) : Prop :=
  b.fromStatus = a.toStatus

instance : DecidableRel continuous := fun a b =>
  inferInstanceAs (Decidable (b.fromStatus = a.toStatus))

/-- The spec's per-state invariant: a non-empty transitions log whose last
entry lands on `currentStatus`, chained by `continuous`. -/
def stateWF (st : TransactionState) : Prop :=
  st.transitions ≠ [] ∧
  st.transitions.getLast?.map (fun t => t.toStatus) = some st.currentStatus ∧
  List.Chain' continuous st.transitions

instance (st : TransactionState) : Decidable (stateWF st) :=
  inferInstanceAs (Decidable (_ ∧ _ ∧ _))

/-- Every state held by the manager satisfies `stateWF`. -/
def managerWF (tm : TransactionManager) : Prop :=
  ∀ p ∈ tm.states, stateWF p.2

/-! ### Association-list lemmas -/

theorem statesGet_statesSet_self (l : List (String × TransactionState))
    (k : String) (v : TransactionState) :
    statesGet (statesSet l k v) k = some v := by
  induction l with
  | nil => simp [statesSet, statesGet]
  | cons p rest ih =>
    by_cases h : p.1 = k
    · simp [statesSet, h, statesGet]
    · simp [statesSet, h, statesGet, ih]

theorem mem_statesSet (l : List (String × TransactionState)) (k : String)
    (v : TransactionState) (p : String × TransactionState)
    (hp : p ∈ statesSet l k v) : p = (k, v) ∨ p ∈ l := by
  induction l with
  | nil => simpa [statesSet] using hp
  | cons q rest ih =>
    by_cases h : q.1 = k
    · simp only [statesSet, h, if_pos rfl] at hp
      rcases List.mem_cons.1 hp with h1 | h1
      · exact Or.inl h1
      · exact Or.inr (List.mem_cons_of_mem _ h1)
    · simp only [statesSet, if_neg h] at hp
      rcases List.mem_cons.1 hp with h1 | h1
      · exact Or.inr (h1 ▸ List.mem_cons_self _ _)
      · rcases ih h1 with h2 | h2
        · exact Or.inl h2
        · exact Or.inr (List.mem_cons_of_mem _ h2)

theorem statesGet_mem (l : List (String × TransactionState)) (k : String)
    (v : TransactionState) (h : statesGet l k = some v) : (k, v) ∈ l := by
  induction l with
  | nil => simp [statesGet] at h
  | cons p rest ih =>
    by_cases hk : p.1 = k
    · simp only [statesGet, if_pos hk] at h
      refine List.mem_cons.2 (Or.inl ?_)
      cases p
      simp_all
    · simp only [statesGet, if_neg hk] at h
      exact List.mem_cons_of_mem _ (ih h)

/-! ### Invariant preservation -/

/-- Appending one continuous transition keeps a well-formed log well-formed
and lands on the new entry. -/
theorem chain'_snoc (l : List StateTransition) (t p : StateTransition)
    (hc : List.Chain' continuous l) (hl : l.getLast? = some p)
    (hf : t.fromStatus = p.toStatus) :
    List.Chain' continuous (l ++ [t]) := by
  refine List.chain'_append.2 ⟨hc, List.chain'_singleton t, ?_⟩
  intro x hx y hy
  simp only [List.head?_cons, Option.mem_def, Option.some.injEq] at hy
  rw [hl] at hx
  simp only [Option.mem_def, Option.some.injEq] at hx
  subst hx
  subst hy
  exact hf

theorem stateWF_extend (st st2 : TransactionState) (t : StateTransition)
    (hwf : stateWF st) (htrans : st2.transitions = st.transitions ++ [t])
    (hcur : st2.currentStatus = t.toStatus)
    (hfrom : t.fromStatus = st.currentStatus) : stateWF st2 := by
  obtain ⟨hne, hlast, hchain⟩ := hwf
  obtain ⟨p, hp⟩ : ∃ p, st.transitions.getLast? = some p := by
    cases hlp : st.transitions.getLast? with
    | none => rw [hlp] at hlast; simp at hlast
    | some p => exact ⟨p, rfl⟩
  have hpto : p.toStatus = st.currentStatus := by
    rw [hp] at hlast
    simpa using hlast
  refine ⟨by simp [htrans], ?_, ?_⟩
  · simp [htrans, List.getLast?_concat, hcur]
  · rw [htrans]
    exact chain'_snoc _ _ _ hchain hp (by rw [hfrom, ← hpto])

/-- Only `currentStatus` and `transitions` matter to `stateWF`. -/
theorem stateWF_of_fields (st st2 : TransactionState)
    (htrans : st2.transitions = st.transitions)
    (hcur : st2.currentStatus = st.currentStatus) (hwf : stateWF st) :
    stateWF st2 := by
  obtain ⟨hne, hlast, hchain⟩ := hwf
  exact ⟨by rw [htrans]; exact hne, by rw [htrans, hcur]; exact hlast,
         by rw [htrans]; exact hchain⟩

theorem managerWF_statesSet (tm : TransactionManager) (k : String)
    (v : TransactionState) (h : managerWF tm) (hv : stateWF v) :
    managerWF { tm with states := statesSet tm.states k v } := by
  intro p hp
  rcases mem_statesSet _ _ _ _ hp with h1 | h1
  · rw [h1]; exact hv
  · exact h p h1

theorem initializeTransaction_preserves (tm : TransactionManager)
    (transactionId : String) (initialStatus : TransactionStatus) (now : Nat)
    (h : managerWF tm) :
    managerWF (initializeTransaction tm transactionId initialStatus now).2 := by
  unfold initializeTransaction
  apply managerWF_statesSet _ _ _ h
  exact ⟨by simp, by simp, List.chain'_singleton _⟩

/-! ### Evaluation lemmas (closed forms of each operation's branches) -/

theorem transitionTo_none (tm : TransactionManager) (transactionId : String)
    (newStatus : TransactionStatus) (reason : Option String) (now : Nat)
    (hget : statesGet tm.states transactionId = none) :
    transitionTo tm transactionId newStatus reason now =
      .error ("Transaction state not found: " ++ transactionId) := by
  simp [transitionTo, hget]

theorem transitionTo_invalid (tm : TransactionManager) (transactionId : String)
    (newStatus : TransactionStatus) (reason : Option String) (now : Nat)
    (state : TransactionState)
    (hget : statesGet tm.states transactionId = some state)
    (hv : isValidTransition state.currentStatus newStatus = false) :
    transitionTo tm transactionId newStatus reason now = .ok (false, tm, []) := by
  simp [transitionTo, hget, hv]

theorem transitionTo_valid (tm : TransactionManager) (transactionId : String)
    (newStatus : TransactionStatus) (reason : Option String) (now : Nat)
    (state : TransactionState)
    (hget : statesGet tm.states transactionId = some state)
    (hv : isValidTransition state.currentStatus newStatus = true) :
    transitionTo tm transactionId newStatus reason now =
      .ok (true,
           { tm with states := (statesSet tm.states transactionId
               { state with
                   previousStatus := some state.currentStatus
                   currentStatus := newStatus
                   transitions := state.transitions ++
                     [{ fromStatus := state.currentStatus, toStatus := newStatus,
                        timestamp := now, reason := reason, error := none }] }) },
           [{ transactionId := transactionId, oldStatus := state.currentStatus,
              newStatus := newStatus }]) := by
  simp [transitionTo, hget, hv]

theorem markAsFailed_none (tm : TransactionManager) (transactionId : String)
    (error : String) (reason : Option String) (now : Nat)
    (hget : statesGet tm.states transactionId = none) :
    markAsFailed tm transactionId error reason now =
      .error ("Transaction state not found: " ++ transactionId) := by
  simp [markAsFailed, hget]

theorem markAsFailed_some (tm : TransactionManager) (transactionId : String)
    (error : String) (reason : Option String) (now : Nat)
    (state : TransactionState)
    (hget : statesGet tm.states transactionId = some state) :
    markAsFailed tm transactionId error reason now =
      .ok ({ tm with states := (statesSet tm.states transactionId
              { state with
                  lastError := some error
                  previousStatus := some state.currentStatus
                  currentStatus := FAILED
                  transitions := state.transitions ++
                    [{ fromStatus := state.currentStatus, toStatus := FAILED,
                       timestamp := now,
                       reason := some (reason.getD "Transaction failed"),
                       error := some error }] }) },
           [{ transactionId := transactionId, oldStatus := state.currentStatus,
              newStatus := FAILED }]) := by
  simp [markAsFailed, hget]

theorem retryTransaction_notFound (tm : TransactionManager)
    (transactionId : String) (retryReason : Option String) (now : Nat)
    (hget : statesGet tm.states transactionId = none) :
    retryTransaction tm transactionId retryReason now =
      .error ("Transaction state not found: " ++ transactionId) := by
  simp [retryTransaction, hget]

theorem retryTransaction_noRetry (tm : TransactionManager)
    (transactionId : String) (retryReason : Option String) (now : Nat)
    (state : TransactionState)
    (hget : statesGet tm.states transactionId = some state)
    (hcr : canRetry tm transactionId = false) :
    retryTransaction tm transactionId retryReason now =
      .ok { success := false, delayMs := none, manager := tm, notes := [] } := by
  simp [retryTransaction, hget, hcr]

theorem retryTransaction_go_invalid (tm : TransactionManager)
    (transactionId : String) (retryReason : Option String) (now : Nat)
    (state : TransactionState)
    (hget : statesGet tm.states transactionId = some state)
    (hcr : canRetry tm transactionId = true)
    (hv : isValidTransition state.currentStatus PENDING = false) :
    retryTransaction tm transactionId retryReason now =
      .ok { success := false,
            delayMs := some (tm.retryConfig.retryDelayMs *
              tm.retryConfig.backoffMultiplier ^ state.retryCount),
            manager := { tm with states := (statesSet tm.states transactionId
              { state with retryCount := state.retryCount + 1 }) },
            notes := [] } := by
  simp [retryTransaction, hget, hcr, transitionTo, statesGet_statesSet_self, hv]

theorem retryTransaction_go_valid (tm : TransactionManager)
    (transactionId : String) (retryReason : Option String) (now : Nat)
    (state : TransactionState)
    (hget : statesGet tm.states transactionId = some state)
    (hcr : canRetry tm transactionId = true)
    (hv : isValidTransition state.currentStatus PENDING = true) :
    retryTransaction tm transactionId retryReason now =
      .ok { success := true,
            delayMs := some (tm.retryConfig.retryDelayMs *
              tm.retryConfig.backoffMultiplier ^ state.retryCount),
            manager := { tm with states :=
              (statesSet (statesSet tm.states transactionId
                  { state with retryCount := state.retryCount + 1 })
                transactionId
                { state with
                    retryCount := state.retryCount + 1
                    previousStatus := some state.currentStatus
                    currentStatus := PENDING
                    transitions := state.transitions ++
                      [{ fromStatus := state.currentStatus, toStatus := PENDING,
                         timestamp := now,
                         reason := some (retryReason.getD
                           ("Retry attempt " ++ toString (state.retryCount + 1))),
                         error := none }] }) },
            notes := [{ transactionId := transactionId,
                        oldStatus := state.currentStatus,
                        newStatus := PENDING }] } := by
  simp [retryTransaction, hget, hcr, transitionTo, statesGet_statesSet_self, hv]

/-! ### Per-operation invariant preservation -/

theorem applyOp_preserves (tm : TransactionManager) (op : ManagerOp)
    (h : managerWF tm) : managerWF (applyOp tm op) := by
  cases op with
  | init transactionId initialStatus now =>
    exact initializeTransaction_preserves tm transactionId initialStatus now h
  | trans transactionId newStatus reason now =>
    cases hget : statesGet tm.states transactionId with
    | none =>
      simp only [applyOp, transitionTo_none tm transactionId newStatus reason now hget]
      exact h
    | some state =>
      cases hv : isValidTransition state.currentStatus newStatus with
      | false =>
        simp only [applyOp,
          transitionTo_invalid tm transactionId newStatus reason now state hget hv]
        exact h
      | true =>
        simp only [applyOp,
          transitionTo_valid tm transactionId newStatus reason now state hget hv]
        apply managerWF_statesSet _ _ _ h
        exact stateWF_extend state _
          { fromStatus := state.currentStatus, toStatus := newStatus,
            timestamp := now, reason := reason, error := none }
          (h _ (statesGet_mem _ _ _ hget)) rfl rfl rfl
  | fail transactionId error reason now =>
    cases hget : statesGet tm.states transactionId with
    | none =>
      simp only [applyOp, markAsFailed_none tm transactionId error reason now hget]
      exact h
    | some state =>
      simp only [applyOp, markAsFailed_some tm transactionId error reason now state hget]
      apply managerWF_statesSet _ _ _ h
      exact stateWF_extend state _
        { fromStatus := state.currentStatus, toStatus := FAILED,
          timestamp := now, reason := some (reason.getD "Transaction failed"),
          error := some error }
        (h _ (statesGet_mem _ _ _ hget)) rfl rfl rfl
  | retry transactionId retryReason now =>
    cases hget : statesGet tm.states transactionId with
    | none =>
      simp only [applyOp, retryTransaction_notFound tm transactionId retryReason now hget]
      exact h
    | some state =>
      cases hcr : canRetry tm transactionId with
      | false =>
        simp only [applyOp,
          retryTransaction_noRetry tm transactionId retryReason now state hget hcr]
        exact h
      | true =>
        have hwfInc : stateWF { state with retryCount := state.retryCount + 1 } :=
          stateWF_of_fields _ _ rfl rfl (h _ (statesGet_mem _ _ _ hget))
        have h1 : managerWF { tm with states := (statesSet tm.states transactionId
            { state with retryCount := state.retryCount + 1 }) } :=
          managerWF_statesSet _ _ _ h hwfInc
        cases hv : isValidTransition state.currentStatus PENDING with
        | false =>
          simp only [applyOp,
            retryTransaction_go_invalid tm transactionId retryReason now state hget hcr hv]
          exact h1
        | true =>
          simp only [applyOp,
            retryTransaction_go_valid tm transactionId retryReason now state hget hcr hv]
          apply managerWF_statesSet _ _ _ h1
          exact stateWF_extend { state with retryCount := state.retryCount + 1 } _
            { fromStatus := state.currentStatus, toStatus := PENDING,
              timestamp := now,
              reason := some (retryReason.getD
                ("Retry attempt " ++ toString (state.retryCount + 1))),
              error := none }
            hwfInc rfl rfl rfl

theorem runOps_preserves (ops : List ManagerOp) (tm : TransactionManager)
    (h : managerWF tm) : managerWF (runOps tm ops) := by
  induction ops generalizing tm with
  | nil => exact h
  | cons op rest ih =>
    simp only [runOps, List.foldl_cons]
    exact ih (applyOp tm op) (applyOp_preserves tm op h)

/-! ## Claim C1 -/

/-- Written from the spec's words (§3): the successive pipeline steps. -/
def pipelineEdges : List (TransactionStatus × TransactionStatus) :=
  [(INITIATED, PENDING), (PENDING, ON_RAMPING), (ON_RAMPING, CONVERTING),
   (CONVERTING, TRANSFERRING), (TRANSFERRING, OFF_RAMPING), (OFF_RAMPING, COMPLETED)]

/-- Written from the spec's words: a status is non-terminal when it is neither
`COMPLETED` nor `FAILED`. -/
def nonTerminal (s : TransactionStatus) : Bool :=
  !(s == COMPLETED) && !(s == FAILED)

/-- Written from the spec's words (§3): the edges of the spec's status graph —
each pipeline step, `s → FAILED` for every non-terminal `s`, and the retry
edge `FAILED → PENDING`. -/
def specGraphEdge (f t : TransactionStatus) : Bool :=
  pipelineEdges.contains (f, t) || (nonTerminal f && (t == FAILED)) ||
    ((f == FAILED) && (t == PENDING))

/-- C1: for every pair of statuses, `isValidTransition` agrees with the spec's
transition graph — true on each pipeline step, on `s → FAILED` for non-terminal
`s`, and on `FAILED → PENDING`; false on every other pair (step-skips,
self-loops, and anything out of `COMPLETED` included). -/
theorem isValidTransition_eq_specGraphEdge :
    ∀ f t : TransactionStatus, isValidTransition f t = specGraphEdge f t := by
  decide

/-! ## Claim C2 -/

/-- C2: in every manager state reachable from a fresh (empty) store by any
sequence of `initializeTransaction` / `transitionTo` / `markAsFailed` /
`retryTransaction` calls, every stored `TransactionState` has a non-empty
transitions log whose last entry's `to` equals `currentStatus`, and each
entry's `from` equals the previous entry's `to`. -/
theorem runOps_stateWF (cfg : RetryConfig) (ops : List ManagerOp)
    (transactionId : String) (st : TransactionState)
    (h : statesGet (runOps (emptyManager cfg) ops).states transactionId = some st) :
    stateWF st :=
  runOps_preserves ops (emptyManager cfg)
    (fun p hp => absurd hp (by simp [emptyManager]))
    _ (statesGet_mem _ _ _ h)

/-- The state produced by initializing "a" and stepping it to `PENDING`. -/
def stC2 : TransactionState :=
  { id := "a", currentStatus := PENDING, previousStatus := some INITIATED,
    transitions :=
      [{ fromStatus := INITIATED, toStatus := INITIATED, timestamp := 0,
         reason := some "Transaction initialized", error := none },
       { fromStatus := INITIATED, toStatus := PENDING, timestamp := 1,
         reason := none, error := none }],
    retryCount := 0, maxRetries := 3, lastError := none, metadata := [] }

theorem runOps_stateWF_witness :
    statesGet (runOps (emptyManager defaultRetryConfig)
      [ManagerOp.init "a" INITIATED 0,
       ManagerOp.trans "a" PENDING none 1]).states "a" = some stC2 ∧
    stateWF stC2 :=
  ⟨by decide,
   runOps_stateWF defaultRetryConfig
     [ManagerOp.init "a" INITIATED 0, ManagerOp.trans "a" PENDING none 1]
     "a" stC2 (by decide)⟩

/-! ## Claim C3 -/

/-- C3: `transitionTo` throws a not-found error when no state exists for the
id, and on an existing state with an invalid transition it returns `false`
leaving everything untouched: the same manager (so no status change, no
appended transition, and nothing new to persist) and no observer
notifications.  The fresh-`INITIATED`-to-`COMPLETED` scenario is an instance
of the second part. -/
theorem transitionTo_guarded (tm : TransactionManager) (transactionId : String)
    (newStatus : TransactionStatus) (reason : Option String) (now : Nat) :
    (statesGet tm.states transactionId = none →
      transitionTo tm transactionId newStatus reason now =
        .error ("Transaction state not found: " ++ transactionId)) ∧
    (∀ state, statesGet tm.states transactionId = some state →
      isValidTransition state.currentStatus newStatus = false →
      transitionTo tm transactionId newStatus reason now = .ok (false, tm, [])) :=
  ⟨fun h => transitionTo_none tm transactionId newStatus reason now h,
   fun state hget hv =>
     transitionTo_invalid tm transactionId newStatus reason now state hget hv⟩

/-- A manager holding exactly one fresh `INITIATED` state under id "a". -/
def tmC3 : TransactionManager :=
  (initializeTransaction (emptyManager defaultRetryConfig) "a" INITIATED 0).2

theorem transitionTo_guarded_witness :
    (statesGet (emptyManager defaultRetryConfig).states "missing" = none ∧
      transitionTo (emptyManager defaultRetryConfig) "missing" PENDING none 0 =
        .error ("Transaction state not found: " ++ "missing")) ∧
    ((statesGet tmC3.states "a").map (fun s => s.currentStatus) = some INITIATED ∧
      transitionTo tmC3 "a" COMPLETED none 5 = .ok (false, tmC3, [])) :=
  ⟨⟨rfl, (transitionTo_guarded (emptyManager defaultRetryConfig) "missing"
      PENDING none 0).1 rfl⟩,
   ⟨by decide, (transitionTo_guarded tmC3 "a" COMPLETED none 5).2 _ rfl (by decide)⟩⟩

/-! ## Claim C9 -/

/-- C9: `markAsFailed` applies no terminal-state guard: whatever the current
status — `COMPLETED` and `FAILED` included — it sets `currentStatus` to
`FAILED`, records `lastError`, and appends a `currentStatus → FAILED`
transition, so a completed payment can be moved out of its terminal state. -/
theorem markAsFailed_unconditional (tm : TransactionManager)
    (transactionId : String) (error : String) (reason : Option String)
    (now : Nat) (state : TransactionState)
    (hget : statesGet tm.states transactionId = some state) :
    ∃ tm2, markAsFailed tm transactionId error reason now =
        .ok (tm2, [{ transactionId := transactionId,
                     oldStatus := state.currentStatus, newStatus := FAILED }]) ∧
      statesGet tm2.states transactionId = some
        ({ state with
             lastError := some error
             previousStatus := some state.currentStatus
             currentStatus := FAILED
             transitions := state.transitions ++
               [{ fromStatus := state.currentStatus, toStatus := FAILED,
                  timestamp := now,
                  reason := some (reason.getD "Transaction failed"),
                  error := some error }] }) :=
  ⟨_, markAsFailed_some tm transactionId error reason now state hget,
   statesGet_statesSet_self _ _ _⟩

/-- A manager holding a single already-`COMPLETED` state under id "c". -/
def stC9 : TransactionState :=
  { id := "c", currentStatus := COMPLETED, previousStatus := some OFF_RAMPING,
    transitions := [{ fromStatus := INITIATED, toStatus := COMPLETED,
                      timestamp := 0, reason := none, error := none }],
    retryCount := 0, maxRetries := 3, lastError := none, metadata := [] }

def tmC9 : TransactionManager :=
  { states := [("c", stC9)], retryConfig := defaultRetryConfig }

theorem markAsFailed_unconditional_witness :
    statesGet tmC9.states "c" = some stC9 ∧ stC9.currentStatus = COMPLETED ∧
    ∃ tm2, markAsFailed tmC9 "c" "boom" none 7 =
        .ok (tm2, [{ transactionId := "c", oldStatus := COMPLETED,
                     newStatus := FAILED }]) ∧
      statesGet tm2.states "c" = some
        ({ stC9 with
             lastError := some "boom"
             previousStatus := some COMPLETED
             currentStatus := FAILED
             transitions := stC9.transitions ++
               [{ fromStatus := COMPLETED, toStatus := FAILED, timestamp := 7,
                  reason := some "Transaction failed", error := some "boom" }] }) :=
  ⟨rfl, rfl, markAsFailed_unconditional tmC9 "c" "boom" none 7 stC9 rfl⟩

/-! ## Claim C10 -/

theorem canRetry_true_of (tm : TransactionManager) (transactionId : String)
    (state : TransactionState)
    (hget : statesGet tm.states transactionId = some state)
    (hmem : state.currentStatus ∈ tm.retryConfig.retryableStatuses)
    (hrc : state.retryCount < state.maxRetries) :
    canRetry tm transactionId = true := by
  simp only [canRetry, hget]
  rw [Bool.and_eq_true]
  exact ⟨List.elem_eq_true_of_mem hmem, by simpa using hrc⟩

/-- C10: on a `PENDING` state with retries remaining (and `PENDING` in the
retryable set, as in the default config) `retryTransaction` consumes a retry
attempt for nothing: `retryCount` goes up by one, yet it returns `false`, the
status stays `PENDING`, no transition is appended and nobody is notified,
because `PENDING → PENDING` is not a valid transition. -/
theorem retryTransaction_pending_consumes (tm : TransactionManager)
    (transactionId : String) (retryReason : Option String) (now : Nat)
    (state : TransactionState)
    (hget : statesGet tm.states transactionId = some state)
    (hst : state.currentStatus = PENDING)
    (hrc : state.retryCount < state.maxRetries)
    (hmem : PENDING ∈ tm.retryConfig.retryableStatuses) :
    retryTransaction tm transactionId retryReason now =
      .ok { success := false,
            delayMs := some (tm.retryConfig.retryDelayMs *
              tm.retryConfig.backoffMultiplier ^ state.retryCount),
            manager := { tm with states := (statesSet tm.states transactionId
              { state with retryCount := state.retryCount + 1 }) },
            notes := [] } := by
  have hcr : canRetry tm transactionId = true :=
    canRetry_true_of tm transactionId state hget (hst ▸ hmem) hrc
  exact retryTransaction_go_invalid tm transactionId retryReason now state hget hcr
    (by rw [hst]; decide)

/-- A manager holding a single `PENDING` state with no retries used. -/
def stC10 : TransactionState :=
  { id := "p", currentStatus := PENDING, previousStatus := some INITIATED,
    transitions := [{ fromStatus := INITIATED, toStatus := PENDING,
                      timestamp := 0, reason := none, error := none }],
    retryCount := 0, maxRetries := 3, lastError := none, metadata := [] }

def tmC10 : TransactionManager :=
  { states := [("p", stC10)], retryConfig := defaultRetryConfig }

theorem retryTransaction_pending_consumes_witness :
    statesGet tmC10.states "p" = some stC10 ∧
    stC10.currentStatus = PENDING ∧ stC10.retryCount < stC10.maxRetries ∧
    PENDING ∈ tmC10.retryConfig.retryableStatuses ∧
    retryTransaction tmC10 "p" none 9 =
      .ok { success := false, delayMs := some 5000,
            manager := { tmC10 with states := (statesSet tmC10.states "p"
              { stC10 with retryCount := 1 }) },
            notes := [] } :=
  ⟨rfl, rfl, by decide, by decide,
   retryTransaction_pending_consumes tmC10 "p" none 9 stC10 rfl rfl
     (by decide) (by decide)⟩

/-! ## Claim C4 (corrected) -/

/-- C4 counterexample: for an id with no stored state, `canRetry` is `false`
yet `retryTransaction` does not "return false immediately" — it throws the
not-found error, refuting the claim's universal first clause. -/
theorem retryTransaction_missing_id_counterexample :
    canRetry (emptyManager defaultRetryConfig) "x" = false ∧
    retryTransaction (emptyManager defaultRetryConfig) "x" none 0 =
      .error ("Transaction state not found: " ++ "x") :=
  ⟨rfl, rfl⟩

/-- C4 (amended): when no state exists for the id, `retryTransaction` throws a
not-found error; when a state exists and `canRetry` is false it returns
`false` immediately without modifying any state; when the state exists with
status `FAILED` (in the retryable set) and `retryCount < maxRetries`, it
increments `retryCount` by exactly one, awaits a delay of
`retryDelayMs * backoffMultiplier ^ (retryCount - 1)` computed from the
incremented count (exponential backoff), transitions `FAILED → PENDING`, and
returns `true`. -/
theorem retryTransaction_amended (tm : TransactionManager)
    (transactionId : String) (retryReason : Option String) (now : Nat) :
    (statesGet tm.states transactionId = none →
      retryTransaction tm transactionId retryReason now =
        .error ("Transaction state not found: " ++ transactionId)) ∧
    (∀ state, statesGet tm.states transactionId = some state →
      canRetry tm transactionId = false →
      retryTransaction tm transactionId retryReason now =
        .ok { success := false, delayMs := none, manager := tm, notes := [] }) ∧
    (∀ state, statesGet tm.states transactionId = some state →
      state.currentStatus = FAILED →
      state.retryCount < state.maxRetries →
      FAILED ∈ tm.retryConfig.retryableStatuses →
      ∃ tm2, retryTransaction tm transactionId retryReason now =
          .ok { success := true,
                delayMs := some (tm.retryConfig.retryDelayMs *
                  tm.retryConfig.backoffMultiplier ^ (state.retryCount + 1 - 1)),
                manager := tm2,
                notes := [{ transactionId := transactionId, oldStatus := FAILED,
                            newStatus := PENDING }] } ∧
        (statesGet tm2.states transactionId).map (fun s => s.retryCount) =
          some (state.retryCount + 1) ∧
        (statesGet tm2.states transactionId).map (fun s => s.currentStatus) =
          some PENDING) := by
  refine ⟨fun h => retryTransaction_notFound tm transactionId retryReason now h,
          fun state hget hcr =>
            retryTransaction_noRetry tm transactionId retryReason now state hget hcr,
          fun state hget hst hrc hmem => ?_⟩
  have hcr : canRetry tm transactionId = true :=
    canRetry_true_of tm transactionId state hget (hst ▸ hmem) hrc
  have hv : isValidTransition state.currentStatus PENDING = true := by
    rw [hst]; decide
  refine ⟨{ tm with states :=
      (statesSet (statesSet tm.states transactionId
          { state with retryCount := state.retryCount + 1 })
        transactionId
        { state with
            retryCount := state.retryCount + 1
            previousStatus := some state.currentStatus
            currentStatus := PENDING
            transitions := state.transitions ++
              [{ fromStatus := state.currentStatus, toStatus := PENDING,
                 timestamp := now,
                 reason := some (retryReason.getD
                   ("Retry attempt " ++ toString (state.retryCount + 1))),
                 error := none }] }) }, ?_, ?_, ?_⟩
  · rw [retryTransaction_go_valid tm transactionId retryReason now state hget hcr hv,
        hst]
    simp
  · rw [statesGet_statesSet_self]
    rfl
  · rw [statesGet_statesSet_self]
    rfl

/-- A manager with one non-retryable (`COMPLETED`) and one retryable
(`FAILED`) state. -/
def stC4a : TransactionState :=
  { id := "a", currentStatus := COMPLETED, previousStatus := some OFF_RAMPING,
    transitions := [{ fromStatus := INITIATED, toStatus := COMPLETED,
                      timestamp := 0, reason := none, error := none }],
    retryCount := 0, maxRetries := 3, lastError := none, metadata := [] }

def stC4b : TransactionState :=
  { id := "b", currentStatus := FAILED, previousStatus := some PENDING,
    transitions := [{ fromStatus := INITIATED, toStatus := FAILED,
                      timestamp := 0, reason := none, error := none }],
    retryCount := 0, maxRetries := 3, lastError := some "err", metadata := [] }

def tmC4 : TransactionManager :=
  { states := [("a", stC4a), ("b", stC4b)], retryConfig := defaultRetryConfig }

theorem retryTransaction_amended_witness :
    (statesGet (emptyManager defaultRetryConfig).states "x" = none ∧
      retryTransaction (emptyManager defaultRetryConfig) "x" none 0 =
        .error ("Transaction state not found: " ++ "x")) ∧
    (statesGet tmC4.states "a" = some stC4a ∧ canRetry tmC4 "a" = false ∧
      retryTransaction tmC4 "a" none 0 =
        .ok { success := false, delayMs := none, manager := tmC4, notes := [] }) ∧
    (statesGet tmC4.states "b" = some stC4b ∧ stC4b.currentStatus = FAILED ∧
      stC4b.retryCount < stC4b.maxRetries ∧
      FAILED ∈ tmC4.retryConfig.retryableStatuses ∧
      ∃ tm2, retryTransaction tmC4 "b" none 3 =
          .ok { success := true, delayMs := some 5000, manager := tm2,
                notes := [{ transactionId := "b", oldStatus := FAILED,
                            newStatus := PENDING }] } ∧
        (statesGet tm2.states "b").map (fun s => s.retryCount) = some 1 ∧
        (statesGet tm2.states "b").map (fun s => s.currentStatus) = some PENDING) :=
  ⟨⟨rfl, (retryTransaction_amended (emptyManager defaultRetryConfig) "x" none 0).1 rfl⟩,
   ⟨rfl, rfl, (retryTransaction_amended tmC4 "a" none 0).2.1 stC4a rfl rfl⟩,
   ⟨rfl, rfl, by decide, by decide,
    (retryTransaction_amended tmC4 "b" none 3).2.2 stC4b rfl rfl (by decide)
      (by decide)⟩⟩

/-! ## Claim C5 -/

theorem getStoredTransaction_update (store : List StoredTransaction)
    (txId : String) (status : TransactionStatus) (now : Nat)
    (t : StoredTransaction) (h : getStoredTransaction store txId = some t) :
    getStoredTransaction (updateTransactionStatus store txId status now) txId =
      some ({ t with status := status, updatedAt := now }) := by
  induction store with
  | nil => simp [getStoredTransaction] at h
  | cons s rest ih =>
    by_cases hs : s.id = txId
    · simp only [getStoredTransaction, if_pos hs] at h
      injection h with h
      subst h
      simp [updateTransactionStatus, hs, getStoredTransaction]
    · simp only [getStoredTransaction, if_neg hs] at h
      simp [updateTransactionStatus, hs, getStoredTransaction, ih h]

/-- C5: `cancelPayment` succeeds — flips the record to `FAILED` and returns
`true` — exactly while the stored status is `INITIATED`, `PENDING` or
`ON_RAMPING`; on any other status it returns `false` and hands back the
store unchanged. -/
theorem cancelPayment_pre_transfer_only (store : List StoredTransaction)
    (txId : String) (now : Nat) (t : StoredTransaction)
    (h : getStoredTransaction store txId = some t) :
    ((t.status = INITIATED ∨ t.status = PENDING ∨ t.status = ON_RAMPING) →
      cancelPayment store txId now =
        .ok (true, updateTransactionStatus store txId FAILED now) ∧
      (getStoredTransaction (updateTransactionStatus store txId FAILED now)
        txId).map (fun s => s.status) = some FAILED) ∧
    (¬(t.status = INITIATED ∨ t.status = PENDING ∨ t.status = ON_RAMPING) →
      cancelPayment store txId now = .ok (false, store)) := by
  constructor
  · intro hd
    have hc : [INITIATED, PENDING, ON_RAMPING].contains t.status = true := by
      rcases hd with h1 | h1 | h1 <;> rw [h1] <;> decide
    refine ⟨?_, ?_⟩
    · simp only [cancelPayment, h]
      rw [hc]
      simp
    · rw [getStoredTransaction_update store txId FAILED now t h]
      rfl
  · intro hd
    have hc : [INITIATED, PENDING, ON_RAMPING].contains t.status = false := by
      revert hd
      cases t.status <;> intro hd <;> first
        | rfl
        | exact absurd (Or.inl rfl) hd
        | exact absurd (Or.inr (Or.inl rfl)) hd
        | exact absurd (Or.inr (Or.inr rfl)) hd
    simp only [cancelPayment, h]
    rw [hc]
    simp

/-- An all-zero fee estimate for concrete-scenario records. -/
def feesZero : FeeEstimate :=
  { onRampFee := 0, blockchainFee := 0, offRampFee := 0, totalFee := 0,
    estimatedTime := 0 }

/-- Concrete stored records: one mid-transfer, one still pending. -/
def stT : StoredTransaction :=
  { id := "t1", createdAt := 0, updatedAt := 0, amount := 10, currency := "USD",
    recipient := "0xaa", recipientENS := none, status := TRANSFERRING,
    fees := feesZero, txHash := none, fernOnRampId := none,
    fernOffRampId := none, paymentContractId := none }

def stP : StoredTransaction :=
  { id := "t2", createdAt := 0, updatedAt := 0, amount := 20, currency := "USD",
    recipient := "0xbb", recipientENS := none, status := PENDING,
    fees := feesZero, txHash := none, fernOnRampId := none,
    fernOffRampId := none, paymentContractId := none }

def storeC5 : List StoredTransaction := [stT, stP]

theorem cancelPayment_pre_transfer_only_witness :
    (getStoredTransaction storeC5 "t1" = some stT ∧
      ¬(stT.status = INITIATED ∨ stT.status = PENDING ∨
        stT.status = ON_RAMPING) ∧
      cancelPayment storeC5 "t1" 9 = .ok (false, storeC5)) ∧
    (getStoredTransaction storeC5 "t2" = some stP ∧
      (stP.status = INITIATED ∨ stP.status = PENDING ∨
        stP.status = ON_RAMPING) ∧
      (cancelPayment storeC5 "t2" 9 =
        .ok (true, updateTransactionStatus storeC5 "t2" FAILED 9) ∧
       (getStoredTransaction (updateTransactionStatus storeC5 "t2" FAILED 9)
         "t2").map (fun s => s.status) = some FAILED)) :=
  ⟨⟨rfl, by decide,
    (cancelPayment_pre_transfer_only storeC5 "t1" 9 stT rfl).2 (by decide)⟩,
   ⟨rfl, Or.inr (Or.inl rfl),
    (cancelPayment_pre_transfer_only storeC5 "t2" 9 stP rfl).1
      (Or.inr (Or.inl rfl))⟩⟩

/-! ## Claim C6 -/

/-- C6: `retryPayment` throws when the id is unknown or the stored status is
not `FAILED`; on a `FAILED` record — whose fields satisfy the validation that
every record created through `initiatePayment` satisfies (positive amount,
non-empty currency, recipient accepted by the client's `validateAddress`) —
it re-runs `initiatePayment` on a request rebuilt from the stored
amount/currency/recipient, returning a fresh `INITIATED` transaction under
the freshly generated id: a new pipeline run, not a resumption of the old
record.  (`freshId ≠ txId` captures the uniqueness of generated ids.) -/
theorem retryPayment_fresh_run (validateAddress : String → Bool)
    (fees : FeeEstimate) (store : List StoredTransaction)
    (txId freshId : String) (now : Nat) :
    (getStoredTransaction store txId = none →
      retryPayment validateAddress fees store txId freshId now =
        .error ("Transaction not found: " ++ txId)) ∧
    (∀ stored, getStoredTransaction store txId = some stored →
      stored.status ≠ FAILED →
      retryPayment validateAddress fees store txId freshId now =
        .error "Can only retry failed transactions") ∧
    (∀ stored, getStoredTransaction store txId = some stored →
      stored.status = FAILED → 0 < stored.amount → stored.currency ≠ "" →
      stored.recipient ≠ "" → validateAddress stored.recipient = true →
      freshId ≠ txId →
      ∃ tx store2,
        retryPayment validateAddress fees store txId freshId now =
          .ok (tx, store2) ∧
        tx.amount = stored.amount ∧ tx.currency = stored.currency ∧
        tx.recipient = stored.recipient ∧ tx.status = INITIATED ∧
        tx.id ≠ txId) := by
  refine ⟨fun h => by simp [retryPayment, h],
          fun stored hget hst => by simp [retryPayment, hget, hst],
          fun stored hget hst hamt hcur hrec hval hfresh => ?_⟩
  refine ⟨{ id := freshId, timestamp := now, amount := stored.amount,
            currency := stored.currency, recipient := stored.recipient,
            status := INITIATED, fees := fees, txHash := none },
          storeTransaction store
            { id := freshId, timestamp := now, amount := stored.amount,
              currency := stored.currency, recipient := stored.recipient,
              status := INITIATED, fees := fees, txHash := none } now,
          ?_, rfl, rfl, rfl, rfl, hfresh⟩
  simp [retryPayment, hget, hst, initiatePayment, validatePaymentRequest,
    not_le.2 hamt, hcur, hrec, hval]

/-- A failed stored record matching the spec's 50/EUR scenario. -/
def stC6 : StoredTransaction :=
  { id := "old", createdAt := 0, updatedAt := 0, amount := 50,
    currency := "EUR", recipient := "R", recipientENS := none,
    status := FAILED, fees := feesZero, txHash := none, fernOnRampId := none,
    fernOffRampId := none, paymentContractId := none }

theorem retryPayment_fresh_run_witness :
    (getStoredTransaction [stC6] "old" = some stC6 ∧ stC6.status = FAILED ∧
      (0 : Rat) < stC6.amount ∧ stC6.currency ≠ "" ∧ stC6.recipient ≠ "" ∧
      (fun _ => true) stC6.recipient = true ∧ "tx_new" ≠ "old") ∧
    ∃ tx store2,
      retryPayment (fun _ => true) feesZero [stC6] "old" "tx_new" 7 =
        .ok (tx, store2) ∧
      tx.amount = stC6.amount ∧ tx.currency = stC6.currency ∧
      tx.recipient = stC6.recipient ∧ tx.status = INITIATED ∧
      tx.id ≠ "old" :=
  ⟨⟨rfl, rfl, by norm_num [stC6], by decide, by decide, rfl, by decide⟩,
   (retryPayment_fresh_run (fun _ => true) feesZero [stC6] "old" "tx_new" 7).2.2
     stC6 rfl rfl (by norm_num [stC6]) (by decide) (by decide) rfl (by decide)⟩

/-! ## Claim C7 -/

/-- C7: `initiatePayment` rejects — with a descriptive error — any request
with a non-positive amount, a missing currency, a missing recipient address,
or a recipient address the injected client's `validateAddress` refuses; the
validation runs before any record is built or stored, so an error result
leaves the stored transaction set exactly as the caller passed it in
(atomicity: no `Transaction` and no new store are produced). -/
theorem initiatePayment_validation (validateAddress : String → Bool)
    (fees : FeeEstimate) (store : List StoredTransaction)
    (request : PaymentRequest) (freshId : String) (now : Nat)
    (h : request.amount ≤ 0 ∨ request.currency = "" ∨
      request.recipientAddress = "" ∨
      validateAddress request.recipientAddress = false) :
    ∃ e, initiatePayment validateAddress fees store request freshId now =
      .error e := by
  by_cases h1 : request.amount ≤ 0
  · exact ⟨"Invalid amount: must be greater than 0",
      by simp [initiatePayment, validatePaymentRequest, h1]⟩
  · by_cases h2 : request.currency = ""
    · exact ⟨"Currency is required",
        by simp [initiatePayment, validatePaymentRequest, h1, h2]⟩
    · by_cases h3 : request.recipientAddress = ""
      · exact ⟨"Recipient address is required",
          by simp [initiatePayment, validatePaymentRequest, h1, h2, h3]⟩
      · have h4 : validateAddress request.recipientAddress = false := by
          rcases h with h | h | h | h
          · exact absurd h h1
          · exact absurd h h2
          · exact absurd h h3
          · exact h
        exact ⟨"Invalid recipient address format",
          by simp [initiatePayment, validatePaymentRequest, h1, h2, h3, h4]⟩

/-- The spec's zero-amount scenario request. -/
def reqC7 : PaymentRequest :=
  { amount := 0, currency := "USD", recipientAddress := "0xabc",
    recipientENS := none }

theorem initiatePayment_validation_witness :
    (reqC7.amount ≤ 0 ∨ reqC7.currency = "" ∨ reqC7.recipientAddress = "" ∨
      (fun _ => true) reqC7.recipientAddress = false) ∧
    ∃ e, initiatePayment (fun _ => true) feesZero [] reqC7 "tx1" 0 =
      .error e :=
  ⟨Or.inl (by norm_num [reqC7]),
   initiatePayment_validation (fun _ => true) feesZero [] reqC7 "tx1" 0
     (Or.inl (by norm_num [reqC7]))⟩

/-! ## Claim C8 -/

theorem countP_add_length_filter_not (l : List (String × TransactionState))
    (p : String × TransactionState → Bool) :
    l.countP p + (l.filter (fun a => !p a)).length = l.length := by
  induction l with
  | nil => rfl
  | cons a rest ih =>
    by_cases hp : p a = true
    · simp [List.countP_cons, List.filter_cons, hp]
      omega
    · simp [List.countP_cons, List.filter_cons, hp]
      omega

/-- C8: `cleanupOldTransactions` keeps exactly the records that are not
(`COMPLETED` and strictly older than `maxAgeMs`, measured from the last
transition's timestamp); every record of any other status — `FAILED` and all
in-flight statuses — survives regardless of age; and the returned count plus
the surviving records add up to the original store (the count is the number
removed).  The hypothesis is C2's invariant that every stored log is
non-empty (the TS code would fault on an empty log before comparing ages). -/
theorem cleanupOldTransactions_spec (tm : TransactionManager)
    (maxAgeMs now : Nat) (h : ∀ p ∈ tm.states, p.2.transitions ≠ []) :
    (∀ p ∈ tm.states,
      (p ∈ (cleanupOldTransactions tm maxAgeMs now).2.states ↔
        ¬(p.2.currentStatus = COMPLETED ∧
          ∀ t, p.2.transitions.getLast? = some t →
            (now : Int) - (t.timestamp : Int) > (maxAgeMs : Int)))) ∧
    (∀ p ∈ tm.states, p.2.currentStatus ≠ COMPLETED →
      p ∈ (cleanupOldTransactions tm maxAgeMs now).2.states) ∧
    (cleanupOldTransactions tm maxAgeMs now).1 +
      (cleanupOldTransactions tm maxAgeMs now).2.states.length =
        tm.states.length := by
  have hmem : ∀ p ∈ tm.states,
      (p ∈ (cleanupOldTransactions tm maxAgeMs now).2.states ↔
        ¬(p.2.currentStatus = COMPLETED ∧
          ∀ t, p.2.transitions.getLast? = some t →
            (now : Int) - (t.timestamp : Int) > (maxAgeMs : Int))) := by
    intro p hp
    obtain ⟨t, ht⟩ : ∃ t, p.2.transitions.getLast? = some t := by
      cases hl : p.2.transitions.getLast? with
      | none => exact absurd (List.getLast?_eq_none_iff.1 hl) (h p hp)
      | some t => exact ⟨t, rfl⟩
    simp only [cleanupOldTransactions, List.mem_filter, hp, true_and,
      Bool.not_eq_true']
    simp [shouldClean, ht]
  refine ⟨hmem, fun p hp hne => (hmem p hp).2 (fun hc => hne hc.1), ?_⟩
  exact countP_add_length_filter_not tm.states
    (fun p => shouldClean now maxAgeMs p.2)

/-- A store with one stale `COMPLETED` record and one equally stale `FAILED`
record. -/
def stC8c : TransactionState :=
  { id := "c", currentStatus := COMPLETED, previousStatus := some OFF_RAMPING,
    transitions := [{ fromStatus := INITIATED, toStatus := COMPLETED,
                      timestamp := 0, reason := none, error := none }],
    retryCount := 0, maxRetries := 3, lastError := none, metadata := [] }

def stC8f : TransactionState :=
  { id := "f", currentStatus := FAILED, previousStatus := some PENDING,
    transitions := [{ fromStatus := INITIATED, toStatus := FAILED,
                      timestamp := 0, reason := none, error := none }],
    retryCount := 0, maxRetries := 3, lastError := some "err", metadata := [] }

def tmC8 : TransactionManager :=
  { states := [("c", stC8c), ("f", stC8f)], retryConfig := defaultRetryConfig }

theorem cleanupOldTransactions_spec_witness :
    (∀ p ∈ tmC8.states, p.2.transitions ≠ []) ∧
    (("c", stC8c) ∈ (cleanupOldTransactions tmC8 1000 10000).2.states ↔
      ¬(stC8c.currentStatus = COMPLETED ∧
        ∀ t, stC8c.transitions.getLast? = some t →
          ((10000 : Nat) : Int) - (t.timestamp : Int) > ((1000 : Nat) : Int))) ∧
    (("f", stC8f) ∈ (cleanupOldTransactions tmC8 1000 10000).2.states) ∧
    ((cleanupOldTransactions tmC8 1000 10000).1 +
      (cleanupOldTransactions tmC8 1000 10000).2.states.length =
        tmC8.states.length) :=
  ⟨by decide,
   (cleanupOldTransactions_spec tmC8 1000 10000 (by decide)).1
     ("c", stC8c) (by decide),
   (cleanupOldTransactions_spec tmC8 1000 10000 (by decide)).2.1
     ("f", stC8f) (by decide) (by decide),
   (cleanupOldTransactions_spec tmC8 1000 10000 (by decide)).2.2⟩
